import Mathlib

/-!
Verification of the Valthrun remote-memory-read handler
(`src/kernel/driver/src/handler/memory_read.rs`) and the radar snapshot
generator (`src/radar/client/src/generator.rs`) against their
natural-language specification.

The Rust code is shallowly embedded: target-process memory is a partial
byte map, machine integers are `Nat` with explicit `% 2 ^ 64` where the
source wraps, SEH faults and Rust panics are explicit outcome
constructors, and every fallible schema accessor of the radar layer is
an `Except`-valued input.
-/

namespace Valthrun

/-- Modulus of a 64-bit machine word; pointer arithmetic in the driver is
`u64` arithmetic (`wrapping_offset`). -/
def u64Mod : Nat := 2 ^ 64

/-- Target-process memory: a partial map from byte address to byte value.
`none` means the address is unmapped, so `ProbeForRead` / the actual
access raises an SEH fault there. -/
def Memory : Type := Nat → Option Nat

/-- Embedding of `ProbeForRead(addr, len, 1)` followed by the actual
access: the whole range `[addr, addr+len)` must be mapped.  A zero-length
probe succeeds trivially, exactly as `ProbeForRead` does nothing for
`Length = 0`. -/
def probeOk (mem : Memory) (addr len : Nat) : Bool :=
  (List.range len).all (fun i => (mem (addr + i)).isSome)

/-- The bytes `core::slice::from_raw_parts(addr, len)` yields once
`probeOk` has succeeded (so `.getD 0` is never the default case on a
path where this value is used). -/
def readBytesAt (mem : Memory) (addr len : Nat) : List Nat :=
  (List.range len).map (fun i => (mem (addr + i)).getD 0)

/-- Embedding of `ProbeForRead(target, 8, 1)` plus
`target.cast::<*const u8>().read()`: dereference 8 bytes at `addr` as a
little-endian 64-bit pointer value; `none` models the SEH fault on an
unmapped address. -/
def derefPtr (mem : Memory) (addr : Nat) : Option Nat :=
  if probeOk mem addr 8 then
    some ((List.range 8).foldr (fun i acc => acc * 256 + (mem (addr + i)).getD 0) 0)
  else none

/-- The fixed-layout read request (`RequestRead`).  `offsets` models the
caller-supplied offset array, `offset_count` how many of its entries are
meaningful, `count` the number of bytes to read into the output buffer. -/
structure RequestRead where
  process_id : Nat
  offsets : List Nat
  offset_count : Nat
  count : Nat
deriving DecidableEq

/-- The tagged response union (`ResponseRead`).  `InvalidAddress` carries
the fixed `[0u64; IO_MAX_DEREF_COUNT]` trace array (as a list of that
length) plus the number of completed hops. -/
inductive ResponseRead where
  | UnknownProcess
  | InvalidAddress (resolved_offsets : List Nat) (resolved_offset_count : Nat)
  | Success
deriving DecidableEq

/-- Result of the `kapi::try_seh` closure: either the final byte read
succeeded, or an SEH fault was caught.  Both carry the values the
mutably-captured `resolved_offsets` array and `offset_index` counter
hold when the closure exits. -/
inductive SehResult where
  | ok (bytes : List Nat) (resolved : List Nat) (idx : Nat)
  | fault (resolved : List Nat) (idx : Nat)
deriving DecidableEq

/-- Process-attachment events: `attach_process_stack(process)` and the
`drop(attach_guard)` that reverts it. -/
inductive AttachEvent where
  | attach
  | detach
deriving DecidableEq

/-- How a call to `handler_read` terminates: `ok res written` is
`Ok(())` with `*res` set and `written` the bytes copied into the
caller's output buffer (`none` when the buffer is untouched); `err` is
an `anyhow::bail!`; `panicked` is a Rust panic (out-of-bounds index). -/
inductive HandlerOutcome where
  | ok (res : ResponseRead) (written : Option (List Nat))
  | err (msg : String)
  | panicked
deriving DecidableEq

/-- A full run of `handler_read`: its outcome together with the ordered
trace of process-attachment events it performed. -/
structure HandlerRun where
  outcome : HandlerOutcome
  events : List AttachEvent
deriving DecidableEq

/-- Embedding of the `while offset_index < local_offsets.len()` loop plus
the final probed read inside `kapi::try_seh`.  The list argument is the
suffix `local_offsets[offset_index..]` still to be consumed, `target` the
current `target_address`, `resolved` the `resolved_offsets` array and
`idx` the `offset_index` counter.  Each iteration probes and dereferences
`target`, records the dereferenced value at `resolved[idx - 1]`, adds the
next offset with wrapping `u64` arithmetic and advances; a probe failure
is the caught SEH fault. -/
def readLoop (mem : Memory) (count : Nat) :
    List Nat → Nat → List Nat → Nat → SehResult
  | [], target, resolved, idx =>
    if probeOk mem target count then
      .ok (readBytesAt mem target count) resolved idx
    else
      .fault resolved idx
  | off :: rest, target, resolved, idx =>
    match derefPtr mem target with
    | none => .fault resolved idx
    | some d =>
      readLoop mem count rest ((d + off) % u64Mod) (resolved.set (idx - 1) d) (idx + 1)

/-- Embedding of `handler_read`.  `maxHops` is the external constant
`IO_MAX_DEREF_COUNT`, `live` models `PsLookupProcessByProcessId`
(whether the process id resolves to a live process), `mem` the target
process memory.  Mirrors the source line by line: process lookup, offset
count validation, `local_offsets[0]` (a panic when the slice is empty),
the attach guard, the `try_seh` hop loop and final read, the guard drop,
and the response/output-buffer writes. -/
def handler_read (maxHops : Nat) (live : Nat → Bool) (mem : Memory)
    (req : RequestRead) : HandlerRun :=
  if !(live req.process_id) then
    ⟨.ok .UnknownProcess none, []⟩
  else if req.offset_count > maxHops ∨ req.offset_count > req.offsets.length then
    ⟨.err "offset count is not valid", []⟩
  else
    match req.offsets.take req.offset_count with
    | [] => ⟨.panicked, []⟩
    | base :: rest =>
      match readLoop mem req.count rest base (List.replicate maxHops 0) 1 with
      | .fault r i =>
        ⟨.ok (.InvalidAddress r (i - 1)) none, [.attach, .detach]⟩
      | .ok bytes _ _ =>
        ⟨.ok .Success (some bytes), [.attach, .detach]⟩

/-! ### Specification-side description of the hop chain

The next two definitions follow the words of the spec (§4.1 step 4 and
§8): the sequence of pointer values successfully dereferenced along the
hop chain, and the final address the chain resolves to (`none` when some
hop dereferences an unmapped address).  They are compared against the
source-derived `readLoop` by the characterization lemmas below. -/

/-- Following the spec: the pointer values successfully dereferenced
along the hop chain, in the order they were dereferenced, stopping at
the first hop whose address is unmapped.  The list argument holds the
offsets after the base address. -/
def specDerefs (mem : Memory) : List Nat → Nat → List Nat
  | [], _ => []
  | off :: rest, target =>
    match derefPtr mem target with
    | none => []
    | some d => d :: specDerefs mem rest ((d + off) % u64Mod)

/-- Following the spec: the final address the hop chain resolves to, or
`none` when some hop dereferences an unmapped address. -/
def specChainTarget (mem : Memory) : List Nat → Nat → Option Nat
  | [], target => some target
  | off :: rest, target =>
    match derefPtr mem target with
    | none => none
    | some d => specChainTarget mem rest ((d + off) % u64Mod)

/-- Writing a list of values into consecutive slots of an array-modelling
list, starting at position `p` — the cumulative effect of the
`resolved_offsets[offset_index - 1] = deref_address` stores. -/
def writeFrom : List Nat → Nat → List Nat → List Nat
  | l, _, [] => l
  | l, p, d :: ds => writeFrom (l.set p d) (p + 1) ds

/-! ### Characterization of the hop loop -/

theorem writeFrom_length (ds : List Nat) :
    ∀ l p, (writeFrom l p ds).length = l.length := by
  induction ds with
  | nil => intro l p; rfl
  | cons d ds ih =>
    intro l p
    simp only [writeFrom, ih, List.length_set]

theorem writeFrom_succ_cons (ds : List Nat) :
    ∀ (x : Nat) (l : List Nat) (p : Nat),
      writeFrom (x :: l) (p + 1) ds = x :: writeFrom l p ds := by
  induction ds with
  | nil => intro x l p; rfl
  | cons d ds ih =>
    intro x l p
    simp only [writeFrom, List.set]
    exact ih x (l.set p d) (p + 1)

theorem writeFrom_zero (ds : List Nat) :
    ∀ l : List Nat, ds.length ≤ l.length →
      writeFrom l 0 ds = ds ++ l.drop ds.length := by
  induction ds with
  | nil => intro l _; simp [writeFrom]
  | cons d ds ih =>
    intro l hlen
    match l with
    | [] => simp at hlen
    | x :: l =>
      simp only [writeFrom, List.set, writeFrom_succ_cons, List.length_cons,
        List.cons_append, List.drop_succ_cons]
      simp only [List.length_cons, Nat.succ_le_succ_iff] at hlen
      rw [ih l hlen]

/-- When every hop succeeds, the spec-side deref sequence covers exactly
the hop-offset list. -/
theorem specDerefs_length_of_some (mem : Memory) :
    ∀ (rest : List Nat) (target t : Nat),
      specChainTarget mem rest target = some t →
      (specDerefs mem rest target).length = rest.length := by
  intro rest
  induction rest with
  | nil => intro target t _; rfl
  | cons off rest ih =>
    intro target t h
    simp only [specChainTarget] at h
    simp only [specDerefs]
    cases hd : derefPtr mem target with
    | none => rw [hd] at h; exact absurd h (by simp)
    | some d =>
      rw [hd] at h
      simp only [List.length_cons]
      rw [ih _ _ h]

/-- When some hop faults, strictly fewer derefs succeed than there are
hop offsets. -/
theorem specDerefs_length_of_none (mem : Memory) :
    ∀ (rest : List Nat) (target : Nat),
      specChainTarget mem rest target = none →
      (specDerefs mem rest target).length < rest.length := by
  intro rest
  induction rest with
  | nil => intro target h; exact absurd h (by simp [specChainTarget])
  | cons off rest ih =>
    intro target h
    simp only [specChainTarget] at h
    simp only [specDerefs]
    cases hd : derefPtr mem target with
    | none => simp
    | some d =>
      rw [hd] at h
      simp only [List.length_cons]
      exact Nat.succ_lt_succ (ih _ h)

/-- Full characterization of the `try_seh` body in terms of the
spec-side chain description: the loop faults exactly when a hop
dereferences an unmapped address or the final probe fails, it records
exactly the successfully dereferenced pointer values starting at slot
`idx - 1`, and the exit value of `offset_index` is the entry value plus
the number of successful derefs. -/
theorem readLoop_eq_spec (mem : Memory) (count : Nat) :
    ∀ (rest : List Nat) (target : Nat) (resolved : List Nat) (idx : Nat),
      1 ≤ idx →
      readLoop mem count rest target resolved idx =
        match specChainTarget mem rest target with
        | none =>
          .fault (writeFrom resolved (idx - 1) (specDerefs mem rest target))
            (idx + (specDerefs mem rest target).length)
        | some t =>
          if probeOk mem t count then
            .ok (readBytesAt mem t count)
              (writeFrom resolved (idx - 1) (specDerefs mem rest target))
              (idx + (specDerefs mem rest target).length)
          else
            .fault (writeFrom resolved (idx - 1) (specDerefs mem rest target))
              (idx + (specDerefs mem rest target).length) := by
  intro rest
  induction rest with
  | nil =>
    intro target resolved idx _
    simp [readLoop, specChainTarget, specDerefs, writeFrom]
  | cons off rest ih =>
    intro target resolved idx hidx
    simp only [readLoop, specChainTarget, specDerefs]
    cases hd : derefPtr mem target with
    | none => simp [writeFrom]
    | some d =>
      dsimp only
      rw [ih ((d + off) % u64Mod) (resolved.set (idx - 1) d) (idx + 1)
        (Nat.le_succ_of_le hidx)]
      have hw : writeFrom resolved (idx - 1)
          (d :: specDerefs mem rest ((d + off) % u64Mod)) =
          writeFrom (resolved.set (idx - 1) d) (idx + 1 - 1)
            (specDerefs mem rest ((d + off) % u64Mod)) := by
        simp only [writeFrom]
        congr 1
        omega
      cases hct : specChainTarget mem rest ((d + off) % u64Mod) with
      | none =>
        simp only [List.length_cons]
        rw [hw]
        congr 1
        omega
      | some t =>
        simp only [List.length_cons]
        rw [hw]
        by_cases hp : probeOk mem t count
        · simp only [hp, if_true]
          congr 1
          omega
        · simp only [hp, if_false, Bool.false_eq_true]
          congr 1
          omega

theorem replicate_zero_getD (k m : Nat) :
    (List.replicate k (0 : Nat)).getD m 0 = 0 := by
  induction k generalizing m with
  | zero => cases m <;> rfl
  | succ k ih =>
    cases m with
    | zero => rfl
    | succ m => exact ih m

theorem replicate_drop (k m : Nat) :
    (List.replicate k (0 : Nat)).drop m = List.replicate (k - m) 0 := by
  induction k generalizing m with
  | zero => simp
  | succ k ih =>
    cases m with
    | zero => rfl
    | succ m =>
      simp only [List.replicate, List.drop_succ_cons, Nat.succ_sub_succ]
      exact ih m

/-- Every `InvalidAddress` response of `handler_read` is built from the
list of successfully dereferenced pointers: the count is the length of
that list, it is strictly below the requested `offset_count`, and the
trace array is that list padded with the zeros the array was initialized
with. -/
theorem handler_read_invalid_shape (maxHops : Nat) (live : Nat → Bool) (mem : Memory)
    (req : RequestRead) (r : List Nat) (cnt : Nat) (out : Option (List Nat))
    (h : (handler_read maxHops live mem req).outcome =
      .ok (.InvalidAddress r cnt) out) :
    ∃ ds : List Nat, cnt = ds.length ∧ ds.length < req.offset_count ∧
      ds.length ≤ maxHops ∧
      r = ds ++ List.replicate (maxHops - ds.length) 0 ∧ out = none := by
  unfold handler_read at h
  by_cases hlive : live req.process_id
  · rw [hlive] at h
    simp only [Bool.not_true, Bool.false_eq_true, if_false] at h
    by_cases hguard : req.offset_count > maxHops ∨ req.offset_count > req.offsets.length
    · rw [if_pos hguard] at h
      exact absurd h (by simp)
    · rw [if_neg hguard] at h
      push_neg at hguard
      obtain ⟨hmax, hlen⟩ := hguard
      cases hoffs : req.offsets.take req.offset_count with
      | nil => rw [hoffs] at h; exact absurd h (by simp)
      | cons base rest =>
        rw [hoffs] at h
        dsimp only at h
        have hrest : rest.length + 1 = req.offset_count := by
          have := congrArg List.length hoffs
          simp only [List.length_take, List.length_cons] at this
          omega
        rw [readLoop_eq_spec mem req.count rest base (List.replicate maxHops 0) 1
          (Nat.le_refl 1)] at h
        cases hct : specChainTarget mem rest base with
        | none =>
          rw [hct] at h
          dsimp only at h
          have hlt := specDerefs_length_of_none mem rest base hct
          have hle : (specDerefs mem rest base).length ≤ maxHops := by omega
          simp only [HandlerOutcome.ok.injEq, ResponseRead.InvalidAddress.injEq] at h
          obtain ⟨⟨hr, hcnt⟩, hout⟩ := h
          refine ⟨specDerefs mem rest base, by omega, by omega, hle, ?_, hout.symm⟩
          rw [← hr, writeFrom_zero _ _ (by simpa using hle), replicate_drop]
        | some t =>
          rw [hct] at h
          dsimp only at h
          have hlenEq := specDerefs_length_of_some mem rest base t hct
          by_cases hp : probeOk mem t req.count
          · rw [if_pos hp] at h
            exact absurd h (by simp)
          · rw [if_neg hp] at h
            have hle : (specDerefs mem rest base).length ≤ maxHops := by omega
            simp only [HandlerOutcome.ok.injEq, ResponseRead.InvalidAddress.injEq] at h
            obtain ⟨⟨hr, hcnt⟩, hout⟩ := h
            refine ⟨specDerefs mem rest base, by omega, by omega, hle, ?_, hout.symm⟩
            rw [← hr, writeFrom_zero _ _ (by simpa using hle), replicate_drop]
  · have hfalse : live req.process_id = false := by
      cases hb : live req.process_id
      · rfl
      · exact absurd hb hlive
    rw [hfalse] at h
    simp only [Bool.not_false, if_true] at h
    exact absurd h (by simp)

/-! ### Claims about `handler_read` -/

/-- C1: when a hop of the chain dereferences an unmapped address, the
fault is caught and `handler_read` returns `Ok(())` with an
`InvalidAddress` response whose `resolved_offset_count` is exactly the
number of previously successful dereferences and whose
`resolved_offsets` array holds exactly those dereferenced pointer
values, in dereference order (followed by the zero padding of the
array). -/
theorem handler_read_hop_fault_trace (maxHops : Nat) (live : Nat → Bool)
    (mem : Memory) (req : RequestRead) (base : Nat) (rest : List Nat)
    (hlive : live req.process_id = true)
    (hmax : req.offset_count ≤ maxHops)
    (hlen : req.offset_count ≤ req.offsets.length)
    (hoffs : req.offsets.take req.offset_count = base :: rest)
    (hfault : specChainTarget mem rest base = none) :
    (handler_read maxHops live mem req).outcome =
      .ok (.InvalidAddress
        (specDerefs mem rest base ++
          List.replicate (maxHops - (specDerefs mem rest base).length) 0)
        (specDerefs mem rest base).length) none := by
  have hrest : rest.length + 1 = req.offset_count := by
    have := congrArg List.length hoffs
    simp only [List.length_take, List.length_cons] at this
    omega
  have hle : (specDerefs mem rest base).length ≤ maxHops := by
    have := specDerefs_length_of_none mem rest base hfault
    omega
  unfold handler_read
  rw [hlive]
  simp only [Bool.not_true, Bool.false_eq_true, if_false]
  rw [if_neg (by omega)]
  rw [hoffs]
  dsimp only
  rw [readLoop_eq_spec mem req.count rest base (List.replicate maxHops 0)
    1 (Nat.le_refl 1)]
  rw [hfault]
  dsimp only
  rw [writeFrom_zero _ _ (by simpa using hle), replicate_drop,
    Nat.add_sub_cancel_left]

theorem handler_read_hop_fault_trace_witness :
    (handler_read 4 (fun _ => true) (fun _ => none)
        ⟨1, [100, 8], 2, 1⟩).outcome =
      .ok (.InvalidAddress [0, 0, 0, 0] 0) none :=
  handler_read_hop_fault_trace 4 (fun _ => true) (fun _ => none)
    ⟨1, [100, 8], 2, 1⟩ 100 [8] rfl (by decide) (by decide) rfl rfl

/-- C2: every `InvalidAddress` response produced by `handler_read` has
`resolved_offset_count` strictly less than the request's
`offset_count`. -/
theorem handler_read_invalid_address_count_lt (maxHops : Nat)
    (live : Nat → Bool) (mem : Memory) (req : RequestRead)
    (r : List Nat) (cnt : Nat) (out : Option (List Nat))
    (h : (handler_read maxHops live mem req).outcome =
      .ok (.InvalidAddress r cnt) out) :
    cnt < req.offset_count := by
  obtain ⟨ds, hcnt, hlt, -, -, -⟩ :=
    handler_read_invalid_shape maxHops live mem req r cnt out h
  omega

theorem handler_read_invalid_address_count_lt_witness :
    (handler_read 3 (fun _ => true) (fun _ => none)
        ⟨7, [50], 1, 1⟩).outcome =
      .ok (.InvalidAddress [0, 0, 0] 0) none ∧ (0 : Nat) < 1 :=
  ⟨rfl, handler_read_invalid_address_count_lt 3 (fun _ => true)
    (fun _ => none) ⟨7, [50], 1, 1⟩ [0, 0, 0] 0 none rfl⟩

/-- C3: a request with `offset_count = 0` does not perform a direct read
at a base address; `local_offsets[0]` indexes an empty slice, so the
handler panics — even with the process alive, every byte of target
memory mapped, and the request otherwise valid. -/
theorem handler_read_zero_offset_count_panics :
    handler_read 4 (fun _ => true) (fun _ => some 0)
        ⟨1, [0, 0, 0, 0], 0, 4⟩ =
      ⟨.panicked, []⟩ := by
  decide

/-- C4 counterexample: a request whose `offset_count` (5) exceeds
`IO_MAX_DEREF_COUNT` (2) does not fail with the protocol-level error
when the process id does not resolve: process lookup runs first and the
call returns `Ok` with `UnknownProcess`. -/
theorem handler_read_overcount_dead_process :
    (handler_read 2 (fun _ => false) (fun _ => none)
        ⟨1, [0, 0, 0, 0, 0], 5, 0⟩).outcome = .ok .UnknownProcess none ∧
      ∀ msg, (handler_read 2 (fun _ => false) (fun _ => none)
        ⟨1, [0, 0, 0, 0, 0], 5, 0⟩).outcome ≠ .err msg := by
  refine ⟨rfl, ?_⟩
  intro msg h
  rw [show (handler_read 2 (fun _ => false) (fun _ => none)
      ⟨1, [0, 0, 0, 0, 0], 5, 0⟩).outcome = .ok .UnknownProcess none
    from rfl] at h
  exact HandlerOutcome.noConfusion h

/-- C4 (amended): for every request whose process id resolves to a live
process and whose `offset_count` exceeds `IO_MAX_DEREF_COUNT` or the
supplied offset array length, `handler_read` fails with the
protocol-level `anyhow` error — the same result for every target
memory (nothing is read), with no attach and no partial trace. -/
theorem handler_read_overcount_protocol_error (maxHops : Nat)
    (live : Nat → Bool) (mem : Memory) (req : RequestRead)
    (hlive : live req.process_id = true)
    (hbad : req.offset_count > maxHops ∨
      req.offset_count > req.offsets.length) :
    handler_read maxHops live mem req =
      ⟨.err "offset count is not valid", []⟩ := by
  unfold handler_read
  rw [hlive]
  simp only [Bool.not_true, Bool.false_eq_true, if_false]
  rw [if_pos hbad]

theorem handler_read_overcount_protocol_error_witness :
    handler_read 3 (fun _ => true) (fun _ => some 0)
        ⟨2, [0, 0, 0, 0, 0, 0, 0, 0, 0], 9, 1⟩ =
      ⟨.err "offset count is not valid", []⟩ :=
  handler_read_overcount_protocol_error 3 (fun _ => true) (fun _ => some 0)
    ⟨2, [0, 0, 0, 0, 0, 0, 0, 0, 0], 9, 1⟩ rfl (Or.inl (by decide))

/-- C6: when the process id does not resolve to a live process,
`handler_read` completes successfully (`Ok(())`) with the
`UnknownProcess` response, without attaching to any address space and
with a result independent of target memory — no memory read is
attempted. -/
theorem handler_read_unknown_process (maxHops : Nat) (live : Nat → Bool)
    (mem : Memory) (req : RequestRead)
    (h : live req.process_id = false) :
    handler_read maxHops live mem req = ⟨.ok .UnknownProcess none, []⟩ := by
  unfold handler_read
  rw [h]
  simp only [Bool.not_false, if_true]

theorem handler_read_unknown_process_witness :
    handler_read 5 (fun _ => false) (fun _ => some 1) ⟨9, [1, 2], 2, 3⟩ =
      ⟨.ok .UnknownProcess none, []⟩ :=
  handler_read_unknown_process 5 (fun _ => false) (fun _ => some 1)
    ⟨9, [1, 2], 2, 3⟩ rfl

/-- C7: once the hop chain resolves (the process is live, the request is
well-formed and no hop faults), a request with `count = 0` always
succeeds: the zero-length final probe passes trivially and exactly zero
bytes are copied into the caller's buffer. -/
theorem handler_read_zero_byte_count_success (maxHops : Nat)
    (live : Nat → Bool) (mem : Memory) (req : RequestRead)
    (base t : Nat) (rest : List Nat)
    (hlive : live req.process_id = true)
    (hmax : req.offset_count ≤ maxHops)
    (hlen : req.offset_count ≤ req.offsets.length)
    (hoffs : req.offsets.take req.offset_count = base :: rest)
    (hchain : specChainTarget mem rest base = some t)
    (hcount : req.count = 0) :
    (handler_read maxHops live mem req).outcome = .ok .Success (some []) := by
  unfold handler_read
  rw [hlive]
  simp only [Bool.not_true, Bool.false_eq_true, if_false]
  have hrest : rest.length + 1 = req.offset_count := by
    have := congrArg List.length hoffs
    simp only [List.length_take, List.length_cons] at this
    omega
  rw [if_neg (by omega)]
  rw [hoffs]
  dsimp only
  rw [readLoop_eq_spec mem req.count rest base (List.replicate maxHops 0)
    1 (Nat.le_refl 1)]
  rw [hchain, hcount]
  dsimp only
  rw [if_pos (by rfl)]
  rfl

theorem handler_read_zero_byte_count_success_witness :
    (handler_read 1 (fun _ => true) (fun _ => none)
        ⟨3, [123], 1, 0⟩).outcome = .ok .Success (some []) :=
  handler_read_zero_byte_count_success 1 (fun _ => true) (fun _ => none)
    ⟨3, [123], 1, 0⟩ 123 123 [] rfl (by decide) (by decide) rfl rfl rfl

/-- C8: on every execution of `handler_read` the attach guard is
balanced: either the handler returns before attaching (process lookup
failure, validation failure, the empty-offsets panic), or it performs
exactly one attach followed by one detach before returning — including
the path where the SEH fault boundary catches a probe failure. -/
theorem handler_read_attach_always_reverted (maxHops : Nat)
    (live : Nat → Bool) (mem : Memory) (req : RequestRead) :
    (handler_read maxHops live mem req).events = [] ∨
    (handler_read maxHops live mem req).events =
      [AttachEvent.attach, AttachEvent.detach] := by
  unfold handler_read
  split
  · left; rfl
  · split
    · left; rfl
    · split
      · left; rfl
      · split
        · right; rfl
        · right; rfl

/-- C10: in every `InvalidAddress` response, the trace array has the
fixed length `IO_MAX_DEREF_COUNT`, and every slot at index
`resolved_offset_count` or beyond still holds the zero it was
initialized with. -/
theorem handler_read_invalid_address_zero_suffix (maxHops : Nat)
    (live : Nat → Bool) (mem : Memory) (req : RequestRead)
    (r : List Nat) (cnt : Nat) (out : Option (List Nat))
    (h : (handler_read maxHops live mem req).outcome =
      .ok (.InvalidAddress r cnt) out) :
    r.length = maxHops ∧ ∀ j, cnt ≤ j → r.getD j 0 = 0 := by
  obtain ⟨ds, hcnt, -, hle, hr, -⟩ :=
    handler_read_invalid_shape maxHops live mem req r cnt out h
  subst hr
  constructor
  · simp only [List.length_append, List.length_replicate]
    omega
  · intro j hj
    rw [List.getD_append_right _ _ _ _ (by omega), replicate_zero_getD]

theorem handler_read_invalid_address_zero_suffix_witness :
    (handler_read 2 (fun _ => true) (fun _ => none)
        ⟨4, [60], 1, 2⟩).outcome = .ok (.InvalidAddress [0, 0] 0) none ∧
      (([0, 0] : List Nat).length = 2 ∧
        ∀ j, 0 ≤ j → ([0, 0] : List Nat).getD j 0 = 0) :=
  ⟨rfl, handler_read_invalid_address_zero_suffix 2 (fun _ => true)
    (fun _ => none) ⟨4, [60], 1, 2⟩ [0, 0] 0 none rfl⟩

/-! ## The radar snapshot generator (`src/radar/client/src/generator.rs`)

The generator consumes the typed lazy state cache (`StateRegistry`) and
game-schema accessors from external crates (`cs2`,
`cs2_schema_generated`, `radar_shared`, `utils_state`).  Only the
control flow of `generator.rs` is in scope; every fallible schema
accessor (`m_*()?`, `read_schema()?`, `resolve::<Kind>()?`) is modelled
as an `Except String`-valued input, and the numeric schema fields
(`f32` times, coordinates) as integers — no claim inspects their
arithmetic, only which failures abort what. -/

/-- A world coordinate triple (`m_vecAbsOrigin`); component arithmetic
is irrelevant to the claims, so `f32` components are modelled as `Int`. -/
structure Vec3 where
  x : Int
  y : Int
  z : Int
deriving DecidableEq

/-- A CS2 entity handle as used here: validity plus `get_entity_index()`. -/
structure HandleData where
  valid : Bool
  entity_index : Nat
deriving DecidableEq

/-- A weapon reference; only `weapon.id()` is read. -/
structure WeaponData where
  id : Nat
deriving DecidableEq

/-- The data carried by `PlayerPawnState::Alive` that
`generate_player_info` copies into the radar record. -/
structure PawnInfo where
  controller_entity_id : Nat
  pawn_entity_id : Nat
  player_name : String
  player_flashtime : Int
  player_has_defuser : Bool
  player_health : Int
  position : Vec3
  rotation : Int
  team_id : Nat
  weapon : WeaponData
deriving DecidableEq

/-- Modelled from the spec: the `PlayerPawnState` enum of the external
`cs2` crate — "pawn state (alive/dead/other, parameterized by entity
index)".  `generate_player_info` matches only on `Alive` and treats
every other variant uniformly. -/
inductive PlayerPawnState where
  | Alive (info : PawnInfo)
  | Dead
  | Other
deriving DecidableEq

/-- The per-player record pushed into the snapshot (`RadarPlayerInfo`). -/
structure RadarPlayerInfo where
  controller_entity_id : Nat
  pawn_entity_id : Nat
  player_name : String
  player_flashtime : Int
  player_has_defuser : Bool
  player_health : Int
  position : List Int
  rotation : Int
  team_id : Nat
  weapon : Nat
deriving DecidableEq

/-- The defuser info attached to an active planted bomb. -/
structure BombDefuser where
  time_remaining : Int
  time_total : Int
  player_name : String
deriving DecidableEq

/-- State of a planted C4 (`PlantedC4State`). -/
inductive PlantedC4State where
  | Defused
  | Detonated
  | Active (time_detonation : Int) (time_total : Int)
      (defuser : Option BombDefuser)
deriving DecidableEq

/-- The planted-bomb record of the snapshot (`RadarPlantedC4`). -/
structure RadarPlantedC4 where
  position : Vec3
  bomb_site : Nat
  state : PlantedC4State
deriving DecidableEq

/-- A dropped/carried (not yet planted) C4 record (`RadarC4`). -/
structure RadarC4 where
  entity_id : Nat
  position : Vec3
  owner_entity_id : Option Nat
deriving DecidableEq

/-- The assembled snapshot (`RadarState`). -/
structure RadarState where
  players : List RadarPlayerInfo
  world_name : String
  planted_c4 : Option RadarPlantedC4
  c4_entities : List RadarC4
deriving DecidableEq

/-- Resolved `Globals` state; `time_2()` is a fallible schema read. -/
structure GlobalsData where
  time_2 : Except String Int

/-- Result of `.entity()?.reference_schema()?` on a pawn/controller
entity reference: the schema accessors the defuser path reads.
`m_iszPlayerName` is a byte array parsed with
`CStr::from_bytes_until_nul(..).ok().map(to_string_lossy)`; the byte
buffer and parse are abstracted to their combined result (`none` when
the parse fails, making the code fall back to `"Name Error"`). -/
structure PawnSchemaData where
  m_hController : Except String HandleData
  m_iszPlayerName : Except String (Option String)

/-- An entity found through `EntitySystem::get_by_handle`; `schema` is
the `.entity()?.reference_schema()?` step. -/
structure PawnEntityData where
  schema : Except String PawnSchemaData

/-- Result of `entity_ptr::<C_PlantedC4>()?.read_schema()?`: the
`C_PlantedC4` schema accessors used by the generator.  `m_flC4Blow` and
`m_flDefuseCountDown` fold in their `.m_Value()?` step;
`m_pGameSceneNode_origin` folds
`m_pGameSceneNode()?.read_schema()?.m_vecAbsOrigin()?`. -/
structure PlantedC4Data where
  m_bBombDefused : Except String Bool
  m_flC4Blow : Except String Int
  m_flTimerLength : Except String Int
  m_bBeingDefused : Except String Bool
  m_flDefuseCountDown : Except String Int
  m_flDefuseLength : Except String Int
  m_hBombDefuser : Except String HandleData
  m_pGameSceneNode_origin : Except String Vec3
  m_nBombSite : Except String Nat

/-- Result of `entity_ptr::<C_C4>()?.read_schema()?`: the `C_C4` schema
accessors used by the generator. -/
structure C4Data where
  m_bBombPlanted : Except String Bool
  m_hOwnerEntity : Except String HandleData
  m_pGameSceneNode_origin : Except String Vec3

/-- One `CEntityIdentity` as the generator's loop sees it: the fallible
operations the loop performs on it, plus the address used in the warn
log.  Class info handles are abstract (`Nat`). -/
structure EntityIdentity where
  entity_class_info : Except String Nat
  handle : Except String HandleData
  entity_ptr_planted : Except String PlantedC4Data
  entity_ptr_c4 : Except String C4Data
  memory_address : Nat

/-- The resolved `EntitySystem` state: `all_identities()` plus
`get_by_handle` (which already folds the `Option` of a missing entity
with the fallible lookup itself). -/
structure EntitySystemData where
  identities : List EntityIdentity
  get_by_handle : HandleData → Except String (Option PawnEntityData)

/-- The resolved `ClassNameCache` state: `lookup` maps a class info
handle to `Ok(Some(name))`, `Ok(None)` (unknown class) or a failure. -/
structure ClassNameCacheData where
  lookup : Nat → Except String (Option String)

/-- The resolved `StateCurrentMap` state. -/
structure StateCurrentMapData where
  current_map : Option String

/-- The state registry as the generator consumes it: one resolver per
state kind this file requests.  Each resolver models
`self.states.resolve::<Kind>(key)` for the current epoch
(`invalidate_states` has already advanced the epoch, so no memoization
bookkeeping is observable here). -/
structure StateRegistry where
  resolveCurrentMap : Except String StateCurrentMapData
  resolveEntitySystem : Except String EntitySystemData
  resolveClassNameCache : Except String ClassNameCacheData
  resolveGlobals : Except String GlobalsData
  resolvePawnState : Nat → Except String PlayerPawnState

/-- Embedding of `planted_c4_to_radar_state`: classify a planted bomb as
defused, detonated or active, resolving the defusing player's name
through the entity system when a defuse is in progress.  Every `?` of
the source is a monadic bind; the two `with_context` messages become the
error strings. -/
def planted_c4_to_radar_state (generator : StateRegistry)
    (planted_c4 : PlantedC4Data) : Except String PlantedC4State := do
  let defused ← planted_c4.m_bBombDefused
  if defused then
    return PlantedC4State.Defused
  let globals ← generator.resolveGlobals
  let time_fuse ← planted_c4.m_flC4Blow
  let now ← globals.time_2
  if time_fuse ≤ now then
    return PlantedC4State.Detonated
  let entities ← generator.resolveEntitySystem
  let time_total ← planted_c4.m_flTimerLength
  let being_defused ← planted_c4.m_bBeingDefused
  let defuser ←
    if being_defused then do
      let time_defuse ← planted_c4.m_flDefuseCountDown
      let defuse_total ← planted_c4.m_flDefuseLength
      let handle_defuser ← planted_c4.m_hBombDefuser
      match (← entities.get_by_handle handle_defuser) with
      | none => Except.error "missing bomb defuser player pawn"
      | some defuserEntity => do
        let defuser ← defuserEntity.schema
        let defuser_controller ← defuser.m_hController
        match (← entities.get_by_handle defuser_controller) with
        | none => Except.error "missing bomb defuser controller"
        | some controllerEntity => do
          let controller ← controllerEntity.schema
          let name_parse ← controller.m_iszPlayerName
          let defuser_name := name_parse.getD "Name Error"
          let now2 ← globals.time_2
          pure (some (BombDefuser.mk (time_defuse - now2) defuse_total
            defuser_name))
    else
      pure (none : Option BombDefuser)
  let now3 ← globals.time_2
  pure (PlantedC4State.Active (time_fuse - now3) time_total defuser)

/-- The `RadarPlayerInfo` record `generate_player_info` builds from an
`Alive` pawn state. -/
def radarPlayerInfoOfPawn (info : PawnInfo) : RadarPlayerInfo :=
  { controller_entity_id := info.controller_entity_id
    pawn_entity_id := info.pawn_entity_id
    player_name := info.player_name
    player_flashtime := info.player_flashtime
    player_has_defuser := info.player_has_defuser
    player_health := info.player_health
    position := [info.position.x, info.position.y, info.position.z]
    rotation := info.rotation
    team_id := info.team_id
    weapon := info.weapon.id }

/-- Embedding of `CS2RadarGenerator::generate_player_info`: resolve the
pawn's `PlayerPawnState` by entity index; an `Alive` state yields
`Ok(Some(record))`, any other state `Ok(None)`; resolution failures
propagate as `Err`. -/
def generate_player_info (gen : StateRegistry)
    (player_pawn : EntityIdentity) : Except String (Option RadarPlayerInfo) := do
  let handle ← player_pawn.handle
  let player_info ← gen.resolvePawnState handle.entity_index
  match player_info with
  | PlayerPawnState.Alive info => pure (some (radarPlayerInfoOfPawn info))
  | _ => pure none

/-- One iteration of the `for entity_identity in entities.all_identities()`
loop of `generate_state`: classify the entity by cached class name and
handle the three recognized classes.  A failed or unknown class lookup,
player-info failures (after the handle read in the log message), and
`planted_c4_to_radar_state` failures skip the entity (`continue` /
`log::warn!`); every other `?` aborts the whole snapshot. -/
def generate_state_step (gen : StateRegistry) (class_name_cache : ClassNameCacheData)
    (radar_state : RadarState) (entity_identity : EntityIdentity) :
    Except String RadarState := do
  let class_info ← entity_identity.entity_class_info
  match (← class_name_cache.lookup class_info) with
  | none =>
    -- log::warn!("Failed to get entity class info {:X}", ...); continue
    pure radar_state
  | some entity_class =>
    if entity_class = "C_CSPlayerPawn" then
      match generate_player_info gen entity_identity with
      | .ok (some info) =>
        pure { radar_state with players := radar_state.players ++ [info] }
      | .ok none => pure radar_state
      | .error _ => do
        -- the warn log formats entity_identity.handle::<()>()?... itself
        let _idx ← entity_identity.handle
        pure radar_state
    else if entity_class = "C_PlantedC4" then do
      let planted_c4 ← entity_identity.entity_ptr_planted
      let position ← planted_c4.m_pGameSceneNode_origin
      let bomb_site ← planted_c4.m_nBombSite
      match planted_c4_to_radar_state gen planted_c4 with
      | .ok state =>
        pure { radar_state with
          planted_c4 := some (RadarPlantedC4.mk position bomb_site state) }
      | .error _ =>
        -- log::warn!("Failed to generate planted C4 state: {}", err)
        pure radar_state
    else if entity_class = "C_C4" then do
      let c4 ← entity_identity.entity_ptr_c4
      let planted ← c4.m_bBombPlanted
      if planted then
        -- this bomb has been planted already
        pure radar_state
      else do
        let owner ← c4.m_hOwnerEntity
        let position ← c4.m_pGameSceneNode_origin
        let handle ← entity_identity.handle
        pure { radar_state with c4_entities := radar_state.c4_entities ++
          [RadarC4.mk handle.entity_index position
            (if owner.valid then some owner.entity_index else none)] }
    else
      pure radar_state

/-- The entity loop of `generate_state`, folding
`generate_state_step` over `all_identities()`; a step failure aborts
the fold exactly as a `?` inside the `for` body returns from
`generate_state`. -/
def generate_state_loop (gen : StateRegistry) (cache : ClassNameCacheData) :
    RadarState → List EntityIdentity → Except String RadarState
  | st, [] => .ok st
  | st, e :: es =>
    match generate_state_step gen cache st e with
    | .ok st2 => generate_state_loop gen cache st2 es
    | .error msg => .error msg

/-- Embedding of `CS2RadarGenerator::generate_state`: after the epoch
invalidation, resolve the current map, build the empty snapshot, resolve
the entity system and class-name cache (all foundational — a failure
aborts the epoch), then run the entity loop. -/
def generate_state (gen : StateRegistry) : Except String RadarState := do
  let current_map ← gen.resolveCurrentMap
  let radar_state : RadarState :=
    { players := []
      world_name := current_map.current_map.getD "<empty>"
      planted_c4 := none
      c4_entities := [] }
  let entities ← gen.resolveEntitySystem
  let class_name_cache ← gen.resolveClassNameCache
  generate_state_loop gen class_name_cache radar_state entities.identities

/-- Replace the identity list the entity system resolves to, keeping
everything else about the registry (the two runs of `generate_state`
compared in the skip theorem differ only in this list). -/
def setEntities (gen : StateRegistry) (es : List EntityIdentity) : StateRegistry :=
  { gen with resolveEntitySystem :=
      gen.resolveEntitySystem.map (fun d => { d with identities := es }) }

/-! ### Plumbing lemmas for the generator -/

theorem except_bind_ok {α β : Type} (a : α) (f : α → Except String β) :
    (Except.ok a >>= f) = f a := rfl

theorem except_bind_error {α β : Type} (e : String) (f : α → Except String β) :
    ((Except.error e : Except String α) >>= f) = Except.error e := rfl

/-- The classification of a planted bomb depends on the registry only
through the resolved globals and the entity system's handle lookup —
not through the identity list. -/
theorem planted_c4_to_radar_state_congr (gen gen2 : StateRegistry)
    (hg : gen.resolveGlobals = gen2.resolveGlobals)
    (hsys : gen.resolveEntitySystem.map EntitySystemData.get_by_handle =
      gen2.resolveEntitySystem.map EntitySystemData.get_by_handle) :
    planted_c4_to_radar_state gen = planted_c4_to_radar_state gen2 := by
  funext c4
  unfold planted_c4_to_radar_state
  rw [hg]
  cases h1 : gen.resolveEntitySystem with
  | error e =>
    cases h2 : gen2.resolveEntitySystem with
    | error e2 =>
      rw [h1, h2] at hsys
      simp only [Except.map, Except.error.injEq] at hsys
      rw [hsys]
    | ok d2 =>
      rw [h1, h2] at hsys
      simp only [Except.map] at hsys
      exact absurd hsys (by simp)
  | ok d =>
    cases h2 : gen2.resolveEntitySystem with
    | error e2 =>
      rw [h1, h2] at hsys
      simp only [Except.map] at hsys
      exact absurd hsys (by simp)
    | ok d2 =>
      rw [h1, h2] at hsys
      simp only [Except.map, Except.ok.injEq] at hsys
      simp only [except_bind_ok]
      rw [hsys]

/-- `generate_player_info` depends on the registry only through the
pawn-state resolver. -/
theorem generate_player_info_congr (gen gen2 : StateRegistry)
    (hp : gen.resolvePawnState = gen2.resolvePawnState) :
    generate_player_info gen = generate_player_info gen2 := by
  funext e
  unfold generate_player_info
  rw [hp]

/-- One loop iteration depends on the registry only through the globals,
the handle lookup and the pawn-state resolver. -/
theorem generate_state_step_congr (gen gen2 : StateRegistry)
    (cache : ClassNameCacheData)
    (hg : gen.resolveGlobals = gen2.resolveGlobals)
    (hsys : gen.resolveEntitySystem.map EntitySystemData.get_by_handle =
      gen2.resolveEntitySystem.map EntitySystemData.get_by_handle)
    (hp : gen.resolvePawnState = gen2.resolvePawnState) :
    generate_state_step gen cache = generate_state_step gen2 cache := by
  funext st e
  unfold generate_state_step
  rw [generate_player_info_congr gen gen2 hp,
    planted_c4_to_radar_state_congr gen gen2 hg hsys]

theorem generate_state_loop_congr (gen gen2 : StateRegistry)
    (cache : ClassNameCacheData)
    (hg : gen.resolveGlobals = gen2.resolveGlobals)
    (hsys : gen.resolveEntitySystem.map EntitySystemData.get_by_handle =
      gen2.resolveEntitySystem.map EntitySystemData.get_by_handle)
    (hp : gen.resolvePawnState = gen2.resolvePawnState) :
    ∀ (es : List EntityIdentity) (st : RadarState),
      generate_state_loop gen cache st es = generate_state_loop gen2 cache st es := by
  intro es
  induction es with
  | nil => intro st; rfl
  | cons e es ih =>
    intro st
    simp only [generate_state_loop]
    rw [generate_state_step_congr gen gen2 cache hg hsys hp]
    cases generate_state_step gen2 cache st e with
    | ok st2 => exact ih st2
    | error msg => rfl

theorem generate_state_loop_append (gen : StateRegistry)
    (cache : ClassNameCacheData) :
    ∀ (l1 l2 : List EntityIdentity) (st : RadarState),
      generate_state_loop gen cache st (l1 ++ l2) =
        match generate_state_loop gen cache st l1 with
        | .ok st2 => generate_state_loop gen cache st2 l2
        | .error msg => .error msg := by
  intro l1
  induction l1 with
  | nil => intro l2 st; rfl
  | cons e l1 ih =>
    intro l2 st
    simp only [List.cons_append, generate_state_loop]
    cases generate_state_step gen cache st e with
    | ok st2 => exact ih l2 st2
    | error msg => rfl

/-- A pawn-classified entity whose `generate_player_info` fails (but
whose handle read in the warn log succeeds) is skipped: the loop
iteration returns the snapshot unchanged. -/
theorem generate_state_step_skip_pawn (gen : StateRegistry)
    (cache : ClassNameCacheData) (st : RadarState) (e : EntityIdentity)
    (ci : Nat) (hd : HandleData) (msg : String)
    (hci : e.entity_class_info = Except.ok ci)
    (hcls : cache.lookup ci = Except.ok (some "C_CSPlayerPawn"))
    (hfail : generate_player_info gen e = Except.error msg)
    (hhandle : e.handle = Except.ok hd) :
    generate_state_step gen cache st e = Except.ok st := by
  unfold generate_state_step
  rw [hci]
  simp only [except_bind_ok]
  rw [hcls]
  simp only [except_bind_ok]
  rw [if_pos trivial, hfail, hhandle]
  simp only [except_bind_ok]
  rfl

/-! ### Claims about the radar generator -/

/-- A planted-C4 entity whose schema read fails, used to show that this
per-entity failure aborts the whole snapshot. -/
def plantedBadEntity : EntityIdentity :=
  { entity_class_info := Except.ok 0
    handle := Except.ok (HandleData.mk true 2)
    entity_ptr_planted := Except.error "planted read_schema failed"
    entity_ptr_c4 := Except.error "unused"
    memory_address := 0 }

/-- A registry whose every foundational resolve succeeds and whose only
entity is `plantedBadEntity`, classified as `C_PlantedC4`. -/
def genPlantedBad : StateRegistry :=
  { resolveCurrentMap := Except.ok (StateCurrentMapData.mk (some "de_dust2"))
    resolveEntitySystem :=
      Except.ok (EntitySystemData.mk [plantedBadEntity] (fun _ => Except.ok none))
    resolveClassNameCache :=
      Except.ok (ClassNameCacheData.mk (fun _ => Except.ok (some "C_PlantedC4")))
    resolveGlobals := Except.ok (GlobalsData.mk (Except.ok 0))
    resolvePawnState := fun _ => Except.ok PlayerPawnState.Other }

/-- C5 counterexample: a single entity whose per-entity resolution
fails — here a `C_PlantedC4` whose `entity_ptr::<C_PlantedC4>()?
.read_schema()?` read fails — aborts the whole snapshot via `?` instead
of being logged and skipped: `generate_state` returns `Err`, no snapshot
at all, although every foundational state resolved. -/
theorem generate_state_planted_schema_failure_aborts :
    generate_state genPlantedBad = Except.error "planted read_schema failed" := by
  rfl

/-- C5 (amended): a pawn-classified entity whose per-entity resolution
(`generate_player_info`) fails — with the handle read of the warn log
succeeding — is logged and skipped, and only that entity: the snapshot
is exactly the one generated without that entity, so sibling entities
still resolve and a snapshot is still returned.  (Per-entity failures
outside that tolerated set, e.g. a planted-C4 schema read, abort the
epoch, as do foundational failures.) -/
theorem generate_state_skips_failing_player_entity
    (gen : StateRegistry) (es1 es2 : List EntityIdentity) (e : EntityIdentity)
    (cache : ClassNameCacheData) (ci : Nat) (hd : HandleData) (msg : String)
    (hcache : gen.resolveClassNameCache = Except.ok cache)
    (hci : e.entity_class_info = Except.ok ci)
    (hcls : cache.lookup ci = Except.ok (some "C_CSPlayerPawn"))
    (hfail : generate_player_info gen e = Except.error msg)
    (hhandle : e.handle = Except.ok hd) :
    generate_state (setEntities gen (es1 ++ e :: es2)) =
      generate_state (setEntities gen (es1 ++ es2)) := by
  have hg : ∀ l, (setEntities gen l).resolveGlobals = gen.resolveGlobals :=
    fun _ => rfl
  have hp : ∀ l, (setEntities gen l).resolvePawnState = gen.resolvePawnState :=
    fun _ => rfl
  have hsys : ∀ l,
      (setEntities gen l).resolveEntitySystem.map EntitySystemData.get_by_handle =
        gen.resolveEntitySystem.map EntitySystemData.get_by_handle := by
    intro l
    show (gen.resolveEntitySystem.map _).map _ = _
    cases gen.resolveEntitySystem <;> rfl
  have hmap : ∀ l, (setEntities gen l).resolveCurrentMap = gen.resolveCurrentMap :=
    fun _ => rfl
  have hccache : ∀ l,
      (setEntities gen l).resolveClassNameCache = gen.resolveClassNameCache :=
    fun _ => rfl
  have hesys : ∀ l, (setEntities gen l).resolveEntitySystem =
      gen.resolveEntitySystem.map (fun d => { d with identities := l }) :=
    fun _ => rfl
  unfold generate_state
  rw [hmap (es1 ++ e :: es2), hmap (es1 ++ es2), hccache (es1 ++ e :: es2),
    hccache (es1 ++ es2), hesys (es1 ++ e :: es2), hesys (es1 ++ es2), hcache]
  cases hcm : gen.resolveCurrentMap with
  | error e0 => simp only [except_bind_error]
  | ok m =>
    simp only [except_bind_ok]
    cases hes : gen.resolveEntitySystem with
    | error e0 => simp only [Except.map, except_bind_error]
    | ok d =>
      simp only [Except.map, except_bind_ok]
      rw [generate_state_loop_congr (setEntities gen (es1 ++ e :: es2)) gen cache
          (hg _) (hsys _) (hp _),
        generate_state_loop_congr (setEntities gen (es1 ++ es2)) gen cache
          (hg _) (hsys _) (hp _),
        generate_state_loop_append gen cache es1 (e :: es2),
        generate_state_loop_append gen cache es1 es2]
      cases hloop : generate_state_loop gen cache
          { players := [], world_name := m.current_map.getD "<empty>",
            planted_c4 := none, c4_entities := [] } es1 with
      | error e1 => rfl
      | ok st1 =>
        dsimp only
        simp only [generate_state_loop]
        rw [generate_state_step_skip_pawn gen cache st1 e ci hd msg
          hci hcls hfail hhandle]

/-- The `Alive` payload used by the concrete witness registry. -/
def pawnAliveInfo : PawnInfo :=
  PawnInfo.mk 1 2 "alice" 0 false 100 (Vec3.mk 10 20 30) 90 3 (WeaponData.mk 7)

/-- A pawn-state resolver that fails for entity index 5 and reports an
alive pawn for every other index. -/
def pawnStateOf (i : Nat) : Except String PlayerPawnState :=
  if i = 5 then Except.error "pawn resolve failed"
  else Except.ok (PlayerPawnState.Alive pawnAliveInfo)

/-- A pawn entity with the given entity index, classified as
`C_CSPlayerPawn` by `cachePawnOnly`. -/
def pawnEntity (idx : Nat) : EntityIdentity :=
  { entity_class_info := Except.ok 0
    handle := Except.ok (HandleData.mk true idx)
    entity_ptr_planted := Except.error "unused"
    entity_ptr_c4 := Except.error "unused"
    memory_address := 0 }

/-- A class-name cache mapping every class info handle to
`C_CSPlayerPawn`. -/
def cachePawnOnly : ClassNameCacheData :=
  ClassNameCacheData.mk (fun _ => Except.ok (some "C_CSPlayerPawn"))

/-- A registry whose foundational states all resolve and whose pawn
resolver is `pawnStateOf`. -/
def genPawns : StateRegistry :=
  { resolveCurrentMap := Except.ok (StateCurrentMapData.mk (some "de_mirage"))
    resolveEntitySystem := Except.ok (EntitySystemData.mk [] (fun _ => Except.ok none))
    resolveClassNameCache := Except.ok cachePawnOnly
    resolveGlobals := Except.ok (GlobalsData.mk (Except.ok 0))
    resolvePawnState := pawnStateOf }

theorem generate_state_skips_failing_player_entity_witness :
    generate_state (setEntities genPawns [pawnEntity 5, pawnEntity 9]) =
      generate_state (setEntities genPawns [pawnEntity 9]) :=
  generate_state_skips_failing_player_entity genPawns [] [pawnEntity 9]
    (pawnEntity 5) cachePawnOnly 0 (HandleData.mk true 5) "pawn resolve failed"
    rfl rfl rfl rfl rfl

/-- C9: for an entity classified `C_CSPlayerPawn`, the loop iteration of
`generate_state` appends exactly one player record when the resolved
`PlayerPawnState` is `Alive`, and leaves the snapshot unchanged —
without raising an error (`generate_player_info` returns `Ok(None)`) —
for every non-`Alive` state. -/
theorem generate_state_player_record_iff_alive
    (gen : StateRegistry) (cache : ClassNameCacheData) (st : RadarState)
    (e : EntityIdentity) (ci : Nat) (hd : HandleData)
    (hci : e.entity_class_info = Except.ok ci)
    (hcls : cache.lookup ci = Except.ok (some "C_CSPlayerPawn"))
    (hhandle : e.handle = Except.ok hd) :
    (∀ info, gen.resolvePawnState hd.entity_index =
        Except.ok (PlayerPawnState.Alive info) →
      generate_state_step gen cache st e =
        Except.ok { st with players := st.players ++ [radarPlayerInfoOfPawn info] }) ∧
    (∀ s, gen.resolvePawnState hd.entity_index = Except.ok s →
      (∀ info, s ≠ PlayerPawnState.Alive info) →
      generate_state_step gen cache st e = Except.ok st) := by
  constructor
  · intro info halive
    have hgpi : generate_player_info gen e =
        Except.ok (some (radarPlayerInfoOfPawn info)) := by
      unfold generate_player_info
      rw [hhandle]
      simp only [except_bind_ok]
      rw [halive]
      simp only [except_bind_ok]
      rfl
    unfold generate_state_step
    rw [hci]
    simp only [except_bind_ok]
    rw [hcls]
    simp only [except_bind_ok]
    rw [if_pos trivial, hgpi]
    rfl
  · intro s hs hne
    have hgpi : generate_player_info gen e = Except.ok none := by
      unfold generate_player_info
      rw [hhandle]
      simp only [except_bind_ok]
      rw [hs]
      simp only [except_bind_ok]
      cases s with
      | Alive info => exact absurd rfl (hne info)
      | Dead => rfl
      | Other => rfl
    unfold generate_state_step
    rw [hci]
    simp only [except_bind_ok]
    rw [hcls]
    simp only [except_bind_ok]
    rw [if_pos trivial, hgpi]
    rfl

theorem generate_state_player_record_iff_alive_witness :
    generate_state_step genPawns cachePawnOnly
        (RadarState.mk [] "de_mirage" none []) (pawnEntity 9) =
      Except.ok (RadarState.mk [radarPlayerInfoOfPawn pawnAliveInfo]
        "de_mirage" none []) :=
  (generate_state_player_record_iff_alive genPawns cachePawnOnly
    (RadarState.mk [] "de_mirage" none []) (pawnEntity 9) 0
    (HandleData.mk true 9) rfl rfl rfl).1 pawnAliveInfo rfl

end Valthrun
